import Mathlib

/-!
Verification development for the `remote-mcp-server-authless` repository.

The repository is a set of near-duplicate Cloudflare-worker MCP servers that
forward JSON-RPC tool calls to a Supabase REST gateway.  This file gives a
shallow embedding of the canonical dispatcher variant
(`src/unnamed/part_002`, the `burns-legal-enhanced` worker) together with the
pieces of `src/src/burns-legal-enhanced-full.ts` and `src/src/index.ts` that
the claims reference, and proves or refutes the frozen claims about them.

Modelling conventions:
* JavaScript strings are Lean `String`s; `s.slice(0, 200)` is `jsSlice` below
  (the first 200 units of the string, taken on the character list).
* A JS value that may be `null`/`undefined` is an `Option`.  The JS `||`
  operator is modelled by `jsOr` and `jsOrD` (for strings the empty string is
  falsy, for numbers 0 is falsy), and `??` by `Option.getD`.
* JS numbers are modelled as `ℚ`.
* The upstream gateway is modelled as pure data carried by an environment:
  a reply is either a JSON row array, a non-2xx status, or a thrown network
  error.  `JSON.stringify` of an opaque upstream record is modelled by an
  opaque `blob : String` field carried with the record; no claim inspects
  the serialized text itself.
-/

/-- JS truthiness for an optional string: `null`/`undefined` and `""` are falsy. -/
def truthyS : Option String → Bool
  | some s => s ≠ ""
  | none => false

/-- JS `a || b` on optional strings. -/
def jsOr : Option String → Option String → Option String
  | some s, b => if s = "" then b else some s
  | none, b => b

/-- JS `a || d` on an optional string with a (truthy) default. -/
def jsOrD : Option String → String → String
  | some s, d => if s = "" then d else s
  | none, d => d

/-- JS `a || b` on optional numbers: `null`/`undefined` and `0` are falsy. -/
def jsOrQ : Option ℚ → Option ℚ → Option ℚ
  | some q, b => if q = 0 then b else some q
  | none, b => b

/-- JS `a || d` on an optional number with a default. -/
def jsOrDQ : Option ℚ → ℚ → ℚ
  | some q, d => if q = 0 then d else q
  | none, d => d

/-- JS `s.slice(0, n)` : the first `n` characters. -/
def jsSlice (n : ℕ) (s : String) : String := ⟨s.data.take n⟩

/-- JS `s.trim()` : strip whitespace from both ends (defined over the
character list so it evaluates by kernel reduction). -/
def jsTrim (s : String) : String :=
  ⟨((s.data.dropWhile Char.isWhitespace).reverse.dropWhile Char.isWhitespace).reverse⟩

/-- JS `!query?.trim()` : the argument is absent, or trims to the empty string. -/
def blankQ : Option String → Bool
  | some s => jsTrim s = ""
  | none => true

/-- A row returned by the `vector_search` RPC (`rows` in `safeVector`).
All columns may be absent. -/
structure VRow where
  exhibit_id : Option String
  id : Option String
  source_id : Option String
  rtype : Option String
  source_table : Option String
  title : Option String
  name : Option String
  description : Option String
  content : Option String
  similarity : Option ℚ
  score : Option ℚ
deriving DecidableEq

/-- A row returned by the keyword `exhibits` query (`docs` in `safeKeyword`). -/
structure KRow where
  id : Option String
  exhibit_id : Option String
  title : Option String
  description : Option String
  content : Option String
deriving DecidableEq

/-- The normalized search result shape (`id`, `type`, `title`, `snippet`,
`similarity`); `similarity` is absent on the keyword path. -/
structure SearchResult where
  id : Option String
  rtype : String
  title : String
  snippet : String
  similarity : Option ℚ
deriving DecidableEq

/-- The vector-path result normalizer, from `safeVector` in
`src/unnamed/part_002` (identical in `burns-legal-enhanced-full.ts`):
`id: r.exhibit_id || r.id || r.source_id`, `type: r.type || r.source_table ||
"document"`, `title: r.title || r.name || r.description || "Result"`,
`snippet: (r.content || r.description || "").slice(0, 200)`,
`similarity: r.similarity || r.score || 0`. -/
def normalizeVRow (r : VRow) : SearchResult :=
  { id := jsOr r.exhibit_id (jsOr r.id r.source_id)
    rtype := jsOrD (jsOr r.rtype r.source_table) "document"
    title := jsOrD (jsOr r.title (jsOr r.name r.description)) "Result"
    snippet := jsSlice 200 (jsOrD (jsOr r.content r.description) "")
    similarity := some (jsOrDQ (jsOrQ r.similarity r.score) 0) }

/-- The keyword-path result normalizer, from `safeKeyword` in
`src/unnamed/part_002` (identical in `burns-legal-enhanced-full.ts`):
`id: d.id || d.exhibit_id`, `type: "exhibit"`, `title: d.title || "Untitled"`,
`snippet: (d.description || d.content || "").slice(0, 200)`. -/
def normalizeKRow (d : KRow) : SearchResult :=
  { id := jsOr d.id d.exhibit_id
    rtype := "exhibit"
    title := jsOrD d.title "Untitled"
    snippet := jsSlice 200 (jsOrD (jsOr d.description d.content) "")
    similarity := none }

/-- An upstream gateway reply: a JSON row array, a non-2xx HTTP status, or a
thrown network error (the `catch` branch).  A non-array JSON body on the
vector path behaves like `rows []` (`Array.isArray(rows) ? rows : []`). -/
inductive GReply (α : Type) where
  | rows (l : List α)
  | httpErr (status : ℕ)
  | netErr (msg : String)
deriving DecidableEq

/-- A reply to a plain REST row read whose body is passed through verbatim
(`list_exhibits`); the body text is kept opaque. -/
inductive RestReply where
  | body (s : String)
  | httpErr (status : ℕ)
  | netErr (msg : String)
deriving DecidableEq

/-- The environment of one `search` call: whether `SUPABASE_URL` and
`SUPABASE_SERVICE_ROLE_KEY` are both set, and the gateway's replies to the
(at most one) vector RPC, keyword query, and `list_exhibits` read it makes. -/
structure SearchEnv where
  configured : Bool
  vectorReply : GReply VRow
  keywordReply : GReply KRow
  listExhibitsReply : RestReply
deriving DecidableEq

/-- A request issued to the upstream gateway by the search orchestrator,
with the numeric argument it carries (`match_count` for the vector RPC,
`limit` for the keyword query). -/
inductive GatewayReq where
  | vectorReq (query : String) (matchCount : ℚ) (threshold : ℚ)
  | keywordReq (query : String) (limit : ℚ)
deriving DecidableEq

/-- The numeric limit a gateway request carries. -/
def reqLimit : GatewayReq → ℚ
  | .vectorReq _ m _ => m
  | .keywordReq _ l => l

/-- The flattened `{ok, data: {results, resultCount}, error}` value produced
by `safeVector` / `safeKeyword`: on success `error` is absent, on failure
`results`/`resultCount` are empty. -/
structure SafeOut where
  ok : Bool
  results : List SearchResult
  resultCount : ℕ
  error : Option String
deriving DecidableEq

/-- Source `safeVector` from `src/unnamed/part_002`: guard a blank query, short-cut
an unconfigured gateway to an ok empty result, otherwise POST the
`vector_search` RPC and normalize the rows; a non-2xx status yields
`Vector search failed: <status>` and a thrown error yields its message.
The list of issued gateway requests is returned alongside. -/
def safeVector (env : SearchEnv) (query : String) (limit : ℚ) (threshold : ℚ) :
    SafeOut × List GatewayReq :=
  if jsTrim query = "" then
    ({ ok := false, results := [], resultCount := 0, error := some "query is required" }, [])
  else if !env.configured then
    ({ ok := true, results := [], resultCount := 0, error := none }, [])
  else
    let req := GatewayReq.vectorReq query limit threshold
    match env.vectorReply with
    | .rows rows =>
        let results := rows.map normalizeVRow
        ({ ok := true, results := results, resultCount := results.length, error := none }, [req])
    | .httpErr status =>
        ({ ok := false, results := [], resultCount := 0,
           error := some ("Vector search failed: " ++ toString status) }, [req])
    | .netErr msg =>
        ({ ok := false, results := [], resultCount := 0, error := some msg }, [req])

/-- Source `safeKeyword` from `src/unnamed/part_002`: guard a blank query, short-cut
an unconfigured gateway, otherwise read `exhibits` with an
`or(title.ilike...,description.ilike...,content.ilike...)` filter and
normalize the rows; a non-2xx status yields `Keyword search failed: <status>`. -/
def safeKeyword (env : SearchEnv) (query : String) (limit : ℚ) :
    SafeOut × List GatewayReq :=
  if jsTrim query = "" then
    ({ ok := false, results := [], resultCount := 0, error := some "query is required" }, [])
  else if !env.configured then
    ({ ok := true, results := [], resultCount := 0, error := none }, [])
  else
    let req := GatewayReq.keywordReq query limit
    match env.keywordReply with
    | .rows docs =>
        let results := docs.map normalizeKRow
        ({ ok := true, results := results, resultCount := results.length, error := none }, [req])
    | .httpErr status =>
        ({ ok := false, results := [], resultCount := 0,
           error := some ("Keyword search failed: " ++ toString status) }, [req])
    | .netErr msg =>
        ({ ok := false, results := [], resultCount := 0, error := some msg }, [req])

/-- The `{results, resultCount, method, error}` object the `search` tool
returns; `method` is absent in the variants that omit it. -/
structure SearchResponse where
  results : List SearchResult
  resultCount : ℕ
  method : Option String
  error : Option String
deriving DecidableEq

/-- The clamp `Math.max(1, Math.min(100, options?.limit ?? 20))`. -/
def clampLimit (optLimit : Option ℚ) : ℚ := max 1 (min 100 (optLimit.getD 20))

/-- Source `TOOL_IMPL.search` from `src/unnamed/part_002`: reject a blank query with
a soft error, clamp the limit, try `safeVector`; use its result tagged
`"vector"` only when it is ok with at least one result, otherwise fall back
to `safeKeyword` tagged `"keyword"`; when the fallback also fails, return an
empty result with `method: v.ok ? "vector" : "keyword"` and
`error: v.error || k.error`.  Issued gateway requests are accumulated. -/
def searchImpl (env : SearchEnv) (query : Option String) (optLimit : Option ℚ) :
    SearchResponse × List GatewayReq :=
  if blankQ query then
    ({ results := [], resultCount := 0, method := some "none",
       error := some "query is required" }, [])
  else
    let q := query.getD ""
    let limit := clampLimit optLimit
    let v := safeVector env q limit (7/10)
    if v.1.ok && decide (0 < v.1.resultCount) then
      ({ results := v.1.results, resultCount := v.1.resultCount,
         method := some "vector", error := none }, v.2)
    else
      let k := safeKeyword env q limit
      if k.1.ok then
        ({ results := k.1.results, resultCount := k.1.resultCount,
           method := some "keyword", error := none }, v.2 ++ k.2)
      else
        ({ results := [], resultCount := 0,
           method := some (if v.1.ok then "vector" else "keyword"),
           error := jsOr v.1.error k.1.error }, v.2 ++ k.2)


/-- Case-insensitive match of one pattern character (given in lowercase, or
a non-letter like the underscore) against an input character, as a
case-insensitive regex does: the input matches itself or, for a lowercase
letter pattern, its uppercase form. -/
def charCI (p c : Char) : Bool :=
  c == p || ('a' ≤ p && p ≤ 'z' && c == Char.ofNat (p.toNat - 32))

/-- Case-insensitive anchored prefix test over character lists: the regex
`/^pat/i` on the input. -/
def startsCI : List Char → List Char → Bool
  | [], _ => true
  | _ :: _, [] => false
  | p :: ps, c :: cs => charCI p c && startsCI ps cs

/-- Case-sensitive anchored prefix test over character lists. -/
def startsCS : List Char → List Char → Bool
  | [], _ => true
  | _ :: _, [] => false
  | p :: ps, c :: cs => c == p && startsCS ps cs

/-- Regex `/^(Ex|FL_|MN_)/i.test(id)` : the exhibit-shaped id test of the
universal `fetch` tool. -/
def exPat (s : String) : Bool :=
  startsCI ['e', 'x'] s.data || startsCI ['f', 'l', '_'] s.data ||
    startsCI ['m', 'n', '_'] s.data

/-- Regex `/^\d+$/.test(id)` : a non-empty all-digit id. -/
def isNumericId (s : String) : Bool :=
  !s.data.isEmpty && s.data.all Char.isDigit

/-- Regex `/^claim_/i.test(id) || /^\d+$/.test(id)` : the claim-shaped id test. -/
def claimPat (s : String) : Bool :=
  startsCI ['c', 'l', 'a', 'i', 'm', '_'] s.data || isNumericId s

/-- Regex `/^fact_/i.test(id)` : the fact-shaped id test. -/
def factPat (s : String) : Bool :=
  startsCI ['f', 'a', 'c', 't', '_'] s.data

/-- Source `id.replace(/^fact_/, '')` — note this replacement is case-SENSITIVE in
the source even though the test above is case-insensitive. -/
def stripFact (s : String) : String :=
  if startsCS ['f', 'a', 'c', 't', '_'] s.data then ⟨s.data.drop 5⟩ else s

/-- An `exhibits` row as used by `fetch` / `fetch_exhibit`. -/
structure ExRow where
  id : Option String
  exhibit_id : Option String
  title : Option String
  content : Option String
  description : Option String
deriving DecidableEq

/-- A `claims` row.  `damages_estimate` is `some` exactly when the stored
value is a JSON number (`typeof === "number"`); `exhibit_ids` is `some`
exactly when the stored value is an array (`Array.isArray`).  `blob` stands
for the record's `JSON.stringify` text, which the claims never inspect. -/
structure ClaimRow where
  damages_estimate : Option ℚ
  exhibit_ids : Option (List String)
  claim_type : Option String
  blob : String
deriving DecidableEq

/-- A `facts` row; `blob` stands for its `JSON.stringify` text. -/
structure FactRow where
  fact_text : Option String
  blob : String
deriving DecidableEq

/-- A `vector_embeddings` (document) row; `blob` stands for its
`JSON.stringify` text. -/
structure DocRow where
  content : Option String
  blob : String
deriving DecidableEq

/-- The upstream store as seen by the lookup helpers of
`src/unnamed/part_002`: `fetchExhibit`/`fetchClaim` resolve an id against
either the `id` or the domain-id column (an `or(...)` filter with
`limit 1`), `fact` is keyed by the stored fact id, and `doc` resolves
`vector_embeddings?id=eq.<id>`.  Each helper returns `data[0] || null`;
a failed request also yields `null`, which this pure model folds into the
lookup function. -/
structure Db where
  exhibit : String → Option ExRow
  claim : String → Option ClaimRow
  fact : String → Option FactRow
  doc : String → Option DocRow

/-- Source `fetchFact` queries `or(id.eq.<cleanId>,id.eq.<id>)` with the
case-sensitively stripped id, so a row matching either key is returned. -/
def factLookup (db : Db) (i : String) : Option FactRow :=
  (db.fact (stripFact i)).orElse fun _ => db.fact i

/-- The resource kinds the universal `fetch` tool can look up, used to trace
which lookups a call attempts. -/
inductive Kind where
  | exh
  | clm
  | fct
  | doc
deriving DecidableEq

/-- The `{id, type, content, ...}` envelope (or `{id, error}`) returned by
the universal `fetch` tool; `metadata` is the looked-up record itself and is
not repeated here. -/
structure FetchOut where
  id : String
  rtype : Option String
  content : Option String
  error : Option String
deriving DecidableEq

/-- The `{id, error: "Resource not found"}` miss result of `fetch`. -/
def notFoundOut (i : String) : FetchOut :=
  { id := i, rtype := none, content := none, error := some "Resource not found" }

/-- Stage 4 of `fetch`: try a generic document by exact id. -/
def tryDoc (db : Db) (i : String) (tr : List Kind) : FetchOut × List Kind :=
  match db.doc i with
  | some d =>
      ({ id := i, rtype := some "document", content := some (jsOrD d.content d.blob),
         error := none }, tr ++ [.doc])
  | none => (notFoundOut i, tr ++ [.doc])

/-- Stage 3 of `fetch`: for `fact_`-shaped ids, try a fact by raw or
stripped id, else fall through to the document stage. -/
def tryFact (db : Db) (i : String) (tr : List Kind) : FetchOut × List Kind :=
  if factPat i then
    match factLookup db i with
    | some f =>
        ({ id := i, rtype := some "fact", content := some (jsOrD f.fact_text f.blob),
           error := none }, tr ++ [.fct])
    | none => tryDoc db i (tr ++ [.fct])
  else tryDoc db i tr

/-- Stage 2 of `fetch`: for claim-shaped ids, try a claim (its content is
the stringified record), else fall through. -/
def tryClaim (db : Db) (i : String) (tr : List Kind) : FetchOut × List Kind :=
  if claimPat i then
    match db.claim i with
    | some c =>
        ({ id := i, rtype := some "claim", content := some c.blob, error := none },
         tr ++ [.clm])
    | none => tryFact db i (tr ++ [.clm])
  else tryFact db i tr

/-- Stage 1 of `fetch`: for exhibit-shaped ids, try an exhibit
(`content: ex.content || ex.description || "No content available"`), else
fall through. -/
def tryExhibit (db : Db) (i : String) (tr : List Kind) : FetchOut × List Kind :=
  if exPat i then
    match db.exhibit i with
    | some ex =>
        ({ id := i, rtype := some "exhibit",
           content := some (jsOrD (jsOr ex.content ex.description) "No content available"),
           error := none }, tr ++ [.exh])
    | none => tryClaim db i (tr ++ [.exh])
  else tryClaim db i tr

/-- Source `TOOL_IMPL.fetch` from `src/unnamed/part_002` (the same chain as the
`fetch` tool of `burns-legal-enhanced-full.ts`): an absent/empty id is
rejected softly, then exhibit, claim, fact and document lookups are tried in
that fixed order; the second component traces which kinds were attempted. -/
def fetchImpl (db : Db) (i : String) : FetchOut × List Kind :=
  if i = "" then
    ({ id := i, rtype := none, content := none, error := some "id is required" }, [])
  else tryExhibit db i []

/-- The `{claim_id, overall_risk, risk_scores: {financial, legal}, ...}`
assessment returned by `analyze_claim_risk`. -/
structure RiskOut where
  claim_id : String
  overall_risk : String
  financial : ℚ
  legal : ℚ
  has_evidence : Bool
  exhibit_count : ℕ
deriving DecidableEq

/-- The scoring section of `TOOL_IMPL.analyze_claim_risk` in
`src/unnamed/part_002` (lines identical in `burns-legal-enhanced-full.ts`),
applied to a found claim record:
`hasEvidence = Array.isArray(cl.exhibit_ids) && cl.exhibit_ids.length > 0`,
`hasDamages = typeof cl.damages_estimate === "number" && cl.damages_estimate > 0`,
`financial = hasDamages ? Math.min(cl.damages_estimate / 1_000_000, 1) : 0.5`,
`legal = hasEvidence ? 0.4 : 0.8`, `overall = (financial + legal) / 2`,
`overall_risk = overall < 0.3 ? "low" : overall < 0.6 ? "moderate" : "high"`. -/
def analyzeClaimRisk (claim_id : String) (cl : ClaimRow) : RiskOut :=
  let hasEvidence : Bool :=
    match cl.exhibit_ids with
    | some l => decide (0 < l.length)
    | none => false
  let hasDamages : Bool :=
    match cl.damages_estimate with
    | some d => decide (0 < d)
    | none => false
  let financial : ℚ :=
    if hasDamages then min (cl.damages_estimate.getD 0 / 1000000) 1 else 1/2
  let legal : ℚ := if hasEvidence then 2/5 else 4/5
  let overall : ℚ := (financial + legal) / 2
  { claim_id := claim_id
    overall_risk :=
      if overall < 3/10 then "low" else if overall < 3/5 then "moderate" else "high"
    financial := financial
    legal := legal
    has_evidence := hasEvidence
    exhibit_count := (cl.exhibit_ids.map List.length).getD 0 }

/-- Helper of `jsDedup`: keep the elements not yet seen. -/
def jsDedupAux {α : Type} [DecidableEq α] : List α → List α → List α
  | [], _ => []
  | x :: xs, seen =>
    if x ∈ seen then jsDedupAux xs seen else x :: jsDedupAux xs (x :: seen)

/-- Semantics of `[...new Set(xs)]` : de-duplicate keeping the first occurrence of each
element. -/
def jsDedup {α : Type} [DecidableEq α] (l : List α) : List α := jsDedupAux l []

/-- A `facts` row as selected by `get_exhibit_relationships`
(`select=claim_id` filtered by `source_exhibit_id`). -/
structure FactRel where
  source_exhibit_id : String
  claim_id : String
deriving DecidableEq

/-- A `claims` row as selected by `get_exhibit_relationships`
(`select=id,claim_id,exhibit_ids`); a null `exhibit_ids` behaves as `[]`
(`c.exhibit_ids || []`). -/
structure ClaimRel where
  cid : String
  exhibit_ids : List String
deriving DecidableEq

/-- The upstream tables `get_exhibit_relationships` reads, as row lists. -/
structure RelDb where
  facts : List FactRel
  claims : List ClaimRel
deriving DecidableEq

/-- The `{exhibit_id, related_claims, related_exhibits, depth}` response. -/
structure RelOut where
  exhibit_id : String
  related_claims : List String
  related_exhibits : List String
  depth : ℤ
deriving DecidableEq

/-- Source `TOOL_IMPL.get_exhibit_relationships` from `src/unnamed/part_002`
(the same join as in `burns-legal-enhanced-full.ts`): collect the distinct
`claim_id`s of facts whose `source_exhibit_id` is the exhibit; if any, read
those claims (`id=in.(...)`), union and de-duplicate their `exhibit_ids`
and drop the origin exhibit; the `depth` argument is echoed unchanged. -/
def relationshipsImpl (db : RelDb) (exhibit_id : String) (depth : ℤ) : RelOut :=
  let claimIds := jsDedup ((db.facts.filter
    (fun f => f.source_exhibit_id = exhibit_id)).map FactRel.claim_id)
  if claimIds.isEmpty then
    { exhibit_id := exhibit_id, related_claims := [], related_exhibits := [],
      depth := depth }
  else
    let claims := db.claims.filter (fun c => c.cid ∈ claimIds)
    let relatedExhibits := jsDedup (claims.flatMap ClaimRel.exhibit_ids)
    { exhibit_id := exhibit_id
      related_claims := claimIds
      related_exhibits := relatedExhibits.filter (fun i => i ≠ exhibit_id)
      depth := depth }

/-- One text content block `{type, text}` of a tool-call result. -/
structure ContentBlock where
  ctype : String
  text : String
deriving DecidableEq

/-- The arguments object of a `tools/call`, restricted to the parameters the
embedded tools read; an absent key is `none`. -/
structure ToolArgs where
  query : Option String
  optionsLimit : Option ℚ
  id : Option String
deriving DecidableEq

/-- An inbound JSON-RPC body: either unparseable JSON, or a request with an
optional integer id, a method, and (for `tools/call`) a tool name and
arguments (ignored by the other methods). -/
inductive RpcIn where
  | malformed (msg : String)
  | request (id : Option ℤ) (method : String) (toolName : String) (args : ToolArgs)

/-- A JSON-RPC response of the `handleRpc` dispatcher of
`src/unnamed/part_002`: the empty acknowledgement for id-less bodies, a
fixed-metadata result (payload not modelled, no claim reads it), a
tool-call result carrying content blocks, or an error `{code, message}`. -/
inductive RpcOut where
  | ack
  | okInfo (id : ℤ) (tag : String)
  | okTool (id : ℤ) (blocks : List ContentBlock)
  | err (id : Option ℤ) (code : ℤ) (msg : String)
deriving DecidableEq

/-- A registered tool implementation: the serialized result text on success
(the dispatcher stringifies non-string results; the embedded handlers
pre-serialize, which the claims never distinguish), or the thrown error's
message. -/
def ToolFn : Type := ToolArgs → Except String String

/-- A tool registry: `TOOL_IMPL[name]`, `none` for an unregistered name. -/
def Registry : Type := String → Option ToolFn

/-- Source `handleRpc` of `src/unnamed/part_002` together with the surrounding
`fetch` handler's JSON parsing: a body that fails `request.json()` yields
`rpcError(null, -32700, "Parse error: ...")`; a body without an id gets the
empty acknowledgement; `tools/call` resolves the registry — an unknown tool
yields `-32602 "Unknown tool: <name>"`, a handler throw yields `-32603`
(`e.message || "Tool error"`), and a handler return is wrapped as the single
`{type: "text", text}` content block; any other method yields
`-32601 "Unknown method: <method>"`. -/
def handleRpc (impl : Registry) : RpcIn → RpcOut
  | .malformed m => .err none (-32700) ("Parse error: " ++ m)
  | .request none _ _ _ => .ack
  | .request (some i) meth nm args =>
    match meth with
    | "initialize" => .okInfo i "initialize"
    | "initialized" => .okInfo i "initialized"
    | "prompts/list" => .okInfo i "prompts/list"
    | "resources/list" => .okInfo i "resources/list"
    | "tools/list" => .okInfo i "tools/list"
    | "tools/call" =>
      match impl nm with
      | none => .err (some i) (-32602) ("Unknown tool: " ++ nm)
      | some f =>
        match f args with
        | .ok s => .okTool i [⟨"text", s⟩]
        | .error e => .err (some i) (-32603) (if e = "" then "Tool error" else e)
    | other => .err (some i) (-32601) ("Unknown method: " ++ other)

/-- Semantics of `impl[name]?.(args)` : run a registered tool, `none` when unregistered
(used to state registry facts without comparing function values). -/
def runTool (impl : Registry) (nm : String) (args : ToolArgs) :
    Option (Except String String) :=
  (impl nm).map (fun f => f args)

/-- Stand-in for `JSON.stringify` of a search response; no claim inspects
the serialized text, only the success/error structure around it. -/
def renderSearch (r : SearchResponse) : String :=
  String.intercalate "|"
    [toString r.resultCount, r.method.getD "", r.error.getD "",
     String.intercalate ";" (r.results.map (fun x => x.id.getD "" ++ "," ++ x.title))]

/-- Stand-in for `JSON.stringify` of a fetch envelope. -/
def renderFetch (r : FetchOut) : String :=
  String.intercalate "|" [r.id, r.rtype.getD "", r.content.getD "", r.error.getD ""]

/-- Stand-in for `JSON.stringify` of the `fetch_exhibit` success object
`{id: ex.id || ex.exhibit_id, type: "exhibit", title, content, metadata}`. -/
def renderFetchedExhibit (ex : ExRow) : String :=
  String.intercalate "|"
    [(jsOr ex.id ex.exhibit_id).getD "", "exhibit", ex.title.getD "",
     jsOrD (jsOr ex.content ex.description) "No content available"]

/-- The `TOOL_IMPL` registry of `src/unnamed/part_002`, restricted to the
entries the claims exercise (`search`, `fetch`, `fetch_exhibit`,
`list_exhibits`); the remaining eleven entries follow the same patterns and
are not needed by any claim, and an unknown name resolves to `none` exactly
as in the source object.  `fetch_exhibit` calls the `fetchExhibit` helper —
which returns `null` both on a missing configuration and on a miss — and
THROWS `Exhibit <id> not found` on `null`; `list_exhibits` first calls
`requireDb`, which throws `Database not configured`, then forwards the
gateway body, throwing `Failed to list exhibits: <status>` on a non-2xx
reply. -/
def toolImpl (env : SearchEnv) (db : Db) : Registry := fun nm =>
  match nm with
  | "search" => some fun a => .ok (renderSearch (searchImpl env a.query a.optionsLimit).1)
  | "fetch" => some fun a => .ok (renderFetch (fetchImpl db (a.id.getD "")).1)
  | "fetch_exhibit" => some fun a =>
      match (if env.configured then db.exhibit (a.id.getD "") else none) with
      | none => .error ("Exhibit " ++ a.id.getD "" ++ " not found")
      | some ex => .ok (renderFetchedExhibit ex)
  | "list_exhibits" => some fun _ =>
      if env.configured then
        match env.listExhibitsReply with
        | .body s => .ok s
        | .httpErr status => .error ("Failed to list exhibits: " ++ toString status)
        | .netErr msg => .error msg
      else .error "Database not configured"
  | _ => none

/-- A response of the `/mcp` JSON-RPC endpoint of `src/src/index.ts`; a
successful `tools/call` passes the handler's return value through as
`result`, which may be `undefined` (`none`) when a handler falls off the
end without returning. -/
inductive IdxOut where
  | okInfo (id : Option ℤ) (tag : String)
  | okResult (id : Option ℤ) (blocks : Option (List ContentBlock))
  | err (id : Option ℤ) (code : ℤ) (msg : String)
deriving DecidableEq

/-- A tool method of the `BurnsLegalMCP` class in `src/src/index.ts`: the
content blocks it returns (`none` when it returns `undefined`), or the
message of an exception that escapes it. -/
def IdxToolFn : Type := ToolArgs → Except String (Option (List ContentBlock))

/-- The manual `switch (name)` of the index.ts `tools/call` branch: `some`
for the six registered names, `none` otherwise. -/
def IdxRegistry : Type := String → Option IdxToolFn

/-- The `/mcp` branch of the `fetch` handler in `src/src/index.ts`:
unparseable JSON yields `-32700 "Parse error - invalid JSON"`;
`initialize`/`tools/list` return fixed metadata; `tools/call` on a name
outside the switch yields `-32601 "Tool not found: <name>"`, a handler
exception reaches the outer catch and yields an id-less
`-32603 "Internal error: ..."`, and a handler return is passed through
verbatim as `result`; any other method yields
`-32601 "Method not found: <method>"`. -/
def idxHandleRpc (impl : IdxRegistry) : RpcIn → IdxOut
  | .malformed _ => .err none (-32700) "Parse error - invalid JSON"
  | .request i meth nm args =>
    match meth with
    | "initialize" => .okInfo i "initialize"
    | "tools/call" =>
      match impl nm with
      | none => .err i (-32601) ("Tool not found: " ++ nm)
      | some f =>
        match f args with
        | .ok v => .okResult i v
        | .error e => .err none (-32603) ("Internal error: " ++ e)
    | "tools/list" => .okInfo i "tools/list"
    | other => .err i (-32601) ("Method not found: " ++ other)

/-- An `exhibits` row of index.ts's `fetchExhibit`, kept as its stringified
form (`JSON.stringify(data[0])` is all the handler uses). -/
structure IdxExRow where
  blob : String
deriving DecidableEq

/-- Stand-in for `JSON.stringify({error: "Exhibit not found", id})`. -/
def renderIdxExErr (i : String) : String := "error: Exhibit not found, id: " ++ i

/-- Source `fetchExhibit` of `src/src/index.ts` (lines 511–546): on a 2xx reply
with at least one row, one text block with the stringified row; when the
fetch throws, the catch returns one text block with a soft error object;
but on a 2xx reply with NO rows — and on a non-2xx reply — the function
falls off the end and returns `undefined` (no content blocks at all). -/
def idxFetchExhibit (reply : GReply IdxExRow) (i : String) :
    Option (List ContentBlock) :=
  match reply with
  | .rows (r :: _) => some [⟨"text", r.blob⟩]
  | .rows [] => none
  | .httpErr _ => none
  | .netErr _ => some [⟨"text", renderIdxExErr i⟩]

/-- The index.ts tool switch restricted to the entry the claims exercise
(`fetch_exhibit`); the other five arms are analogous and unused by the
claims, and any name outside the six-arm switch resolves to `none` exactly
as the source's `default:` branch does. -/
def idxRegistry (reply : GReply IdxExRow) : IdxRegistry := fun nm =>
  match nm with
  | "fetch_exhibit" => some fun a => .ok (idxFetchExhibit reply (a.id.getD ""))
  | _ => none

/-- The result of the `fetch_exhibit` tool of
`src/src/burns-legal-enhanced-full.ts`: always a single text block whose
payload either carries an `error` field (soft error) or the exhibit
envelope. -/
inductive FullToolOut where
  | soft (errMsg : String)
  | payload (ex : ExRow)
deriving DecidableEq

/-- Source `fetch_exhibit` of `burns-legal-enhanced-full.ts` (lines 247–277): a
non-2xx reply yields the soft `Failed to fetch exhibit: <status>`, an empty
row set yields the soft `Exhibit <id> not found`, and a row yields the
envelope — in every case a successful result, never a protocol error. -/
def fullFetchExhibit (reply : GReply ExRow) (i : String) : FullToolOut :=
  match reply with
  | .httpErr status => .soft ("Failed to fetch exhibit: " ++ toString status)
  | .netErr msg => .soft msg
  | .rows [] => .soft ("Exhibit " ++ i ++ " not found")
  | .rows (ex :: _) => .payload ex

/-- The first non-empty, non-null string among the candidates (the truthy
candidate a JS `||` chain selects), empty when there is none. -/
def firstTruthy (l : List (Option String)) : String :=
  ((l.filterMap id).filter (fun s => s ≠ "")).headD ""

/-- The claim's stated candidate rule for snippets: the first NON-NULL of
`content`/`description`, in that order (an empty string is non-null). -/
def claimFirstNonNull (content description : Option String) : String :=
  match content with
  | some s => s
  | none => description.getD ""

/-- Whether a dispatcher response is a JSON-RPC protocol-level error. -/
def rpcIsErr : RpcOut → Bool
  | .err _ _ _ => true
  | _ => false

/-- An arguments object with no keys set. -/
def argsNone : ToolArgs := { query := none, optionsLimit := none, id := none }

/-- A store with every lookup missing. -/
def db0 : Db :=
  { exhibit := fun _ => none, claim := fun _ => none, fact := fun _ => none,
    doc := fun _ => none }

/-- A claim row with id `Ex042` and nothing else in the store: the
spec's scenario of a claim whose id is exhibit-shaped. -/
def dbEx042 : Db :=
  { exhibit := fun _ => none
    claim := fun i =>
      if i = "Ex042" then
        some { damages_estimate := some 5000, exhibit_ids := some [],
               claim_type := none, blob := "claim Ex042" }
      else none
    fact := fun _ => none
    doc := fun _ => none }

/-- A configured environment whose vector RPC succeeds with zero rows and
whose keyword query fails with HTTP 500. -/
def envVecEmptyKwFail : SearchEnv :=
  { configured := true, vectorReply := .rows [], keywordReply := .httpErr 500,
    listExhibitsReply := .body "rows" }

/-- A vector row carrying only an exhibit id and content. -/
def vrow1 : VRow :=
  { exhibit_id := some "Ex001", id := none, source_id := none, rtype := none,
    source_table := none, title := some "Lease", name := none,
    description := none, content := some "lease agreement", similarity := some (9/10),
    score := none }

/-- A configured environment whose vector RPC succeeds with one row. -/
def envVecHit : SearchEnv :=
  { configured := true, vectorReply := .rows [vrow1], keywordReply := .rows [],
    listExhibitsReply := .body "rows" }

/-- A configured environment where the vector RPC returns no rows and the
keyword query succeeds with no rows. -/
def envBothEmpty : SearchEnv :=
  { configured := true, vectorReply := .rows [], keywordReply := .rows [],
    listExhibitsReply := .body "rows" }

/-- An unconfigured environment. -/
def envNoDb : SearchEnv :=
  { configured := false, vectorReply := .rows [], keywordReply := .rows [],
    listExhibitsReply := .body "rows" }

/-- A claim row with a 2,000,000 damages estimate and one exhibit. -/
def claimRow2M : ClaimRow :=
  { damages_estimate := some 2000000, exhibit_ids := some ["Ex1"],
    claim_type := some "breach", blob := "claim 2M" }

/-- A claim row with a zero damages estimate and an empty exhibit list. -/
def claimRow0 : ClaimRow :=
  { damages_estimate := some 0, exhibit_ids := some [],
    claim_type := none, blob := "claim 0" }

/-- A claim row with no damages estimate and no exhibit array. -/
def claimRowNone : ClaimRow :=
  { damages_estimate := none, exhibit_ids := none,
    claim_type := none, blob := "claim none" }

/-- A keyword row whose `description` and `content` are both non-null and
different. -/
def krowBoth : KRow :=
  { id := some "Ex004", exhibit_id := none, title := some "T",
    description := some "B", content := some "A" }

/-- A small relationship store: two facts sourced from `ExA` naming claims
`c1` (twice) and `c2`, one fact from elsewhere, and claim rows whose exhibit
lists overlap the origin. -/
def relDbW : RelDb :=
  { facts :=
      [ { source_exhibit_id := "ExA", claim_id := "c1" },
        { source_exhibit_id := "ExA", claim_id := "c1" },
        { source_exhibit_id := "ExA", claim_id := "c2" },
        { source_exhibit_id := "ExB", claim_id := "c3" } ]
    claims :=
      [ { cid := "c1", exhibit_ids := ["ExA", "ExC"] },
        { cid := "c2", exhibit_ids := ["ExC", "ExD"] },
        { cid := "c3", exhibit_ids := ["ExE"] } ] }

/-- An exhibit row used by the fetch witnesses. -/
def exRowW : ExRow :=
  { id := some "Ex001", exhibit_id := some "Ex001", title := some "Lease",
    content := some "lease text", description := none }

/-- A fact row used by the fetch witnesses. -/
def factRowW : FactRow := { fact_text := some "a fact", blob := "fact blob" }

/-- A document row used by the fetch witnesses. -/
def docRowW : DocRow := { content := some "doc text", blob := "doc blob" }

/-- A store populated with one record of each kind, under ids of the four
shapes. -/
def dbFull : Db :=
  { exhibit := fun i => if i = "Ex001" then some exRowW else none
    claim := fun i => if i = "claim_9" then some claimRow2M else none
    fact := fun i => if i = "7" then some factRowW else none
    doc := fun i => if i = "misc" then some docRowW else none }

/-! ## Helper lemmas -/

theorem jsSlice_length (n : ℕ) (s : String) : (jsSlice n s).length = min n s.length := by
  show (s.data.take n).length = min n s.data.length
  exact s.data.length_take n

theorem jsOrD_eq_firstTruthy (a b : Option String) :
    jsOrD (jsOr a b) "" = firstTruthy [a, b] := by
  rcases a with _ | s
  · rcases b with _ | t
    · rfl
    · by_cases ht : t = "" <;> simp [jsOr, jsOrD, firstTruthy, ht]
  · by_cases hs : s = ""
    · rcases b with _ | t
      · simp [jsOr, jsOrD, firstTruthy, hs]
      · by_cases ht : t = "" <;> simp [jsOr, jsOrD, firstTruthy, hs, ht]
    · simp [jsOr, jsOrD, firstTruthy, hs]

/-! ## C2: the `analyze_claim_risk` scoring law -/

/-- C2: for every claim record reachable by `analyze_claim_risk`,
`financial = min(damages_estimate / 1_000_000, 1)` when a positive numeric
damages estimate exists and `0.5` otherwise; `legal = 0.4` when at least one
associated exhibit id exists and `0.8` otherwise; `overall_risk` buckets
`overall = (financial + legal) / 2` at `0.3` and `0.6`; and in particular
`damages_estimate = 2_000_000` with a non-empty exhibit list gives
`financial = 1`, `legal = 0.4`, `overall_risk = "high"`, while
`damages_estimate = 0` with an empty exhibit list gives `financial = 0.5`,
`legal = 0.8`, `overall_risk = "high"`. -/
theorem analyze_claim_risk_scoring
    (cidA : String) (clA : ClaimRow) (dA : ℚ) (lA : List String)
    (hA1 : clA.damages_estimate = some dA) (hA2 : 0 < dA)
    (hA3 : clA.exhibit_ids = some lA) (hA4 : lA ≠ [])
    (cidB : String) (clB : ClaimRow) (hB : clB.damages_estimate = none)
    (cidC : String) (clC : ClaimRow) (dC : ℚ)
    (hC1 : clC.damages_estimate = some dC) (hC2 : dC ≤ 0)
    (cidD : String) (clD : ClaimRow) (hD : clD.exhibit_ids = none)
    (cidE : String) (clE : ClaimRow) (hE : clE.exhibit_ids = some [])
    (cidF : String) (clF : ClaimRow)
    (cidG : String) (clG : ClaimRow)
    (hG1 : clG.damages_estimate = some 2000000) (hG2 : clG.exhibit_ids = some ["Ex1"])
    (cidH : String) (clH : ClaimRow)
    (hH1 : clH.damages_estimate = some 0) (hH2 : clH.exhibit_ids = some []) :
      (analyzeClaimRisk cidA clA).financial = min (dA / 1000000) 1
    ∧ (analyzeClaimRisk cidA clA).legal = 2/5
    ∧ (analyzeClaimRisk cidB clB).financial = 1/2
    ∧ (analyzeClaimRisk cidC clC).financial = 1/2
    ∧ (analyzeClaimRisk cidD clD).legal = 4/5
    ∧ (analyzeClaimRisk cidE clE).legal = 4/5
    ∧ ((analyzeClaimRisk cidF clF).overall_risk =
        if ((analyzeClaimRisk cidF clF).financial + (analyzeClaimRisk cidF clF).legal) / 2
            < 3/10 then "low"
        else if ((analyzeClaimRisk cidF clF).financial + (analyzeClaimRisk cidF clF).legal) / 2
            < 3/5 then "moderate"
        else "high")
    ∧ (analyzeClaimRisk cidG clG).financial = 1
    ∧ (analyzeClaimRisk cidG clG).legal = 2/5
    ∧ (analyzeClaimRisk cidG clG).overall_risk = "high"
    ∧ (analyzeClaimRisk cidH clH).financial = 1/2
    ∧ (analyzeClaimRisk cidH clH).legal = 4/5
    ∧ (analyzeClaimRisk cidH clH).overall_risk = "high" := by
  refine ⟨?_, ?_, ?_, ?_, ?_, ?_, ?_, ?_, ?_, ?_, ?_, ?_, ?_⟩ <;>
    simp [analyzeClaimRisk, hA1, hA2, hA3, hA4, hB, hC1, hD, hE, hG1, hG2, hH1, hH2,
      not_lt.mpr hC2] <;>
    norm_num [min_def]

/-- Witness for C2 at `damages_estimate = 2_000_000`, `exhibit_ids = ["Ex1"]`. -/
theorem analyze_claim_risk_scoring_witness :
    claimRow2M.damages_estimate = some 2000000
  ∧ (0:ℚ) < 2000000
  ∧ (analyzeClaimRisk "claim_001" claimRow2M).financial = min ((2000000:ℚ) / 1000000) 1 :=
  ⟨rfl, by norm_num,
    (analyze_claim_risk_scoring "claim_001" claimRow2M 2000000 ["Ex1"] rfl (by norm_num)
      rfl (by simp)
      "claim_002" claimRowNone rfl
      "claim_003" claimRow0 0 rfl le_rfl
      "claim_004" claimRowNone rfl
      "claim_005" claimRow0 rfl
      "claim_006" claimRow0
      "claim_007" claimRow2M rfl rfl
      "claim_008" claimRow0 rfl rfl).1⟩

/-! ## C4: snippet truncation -/

/-- C4 counterexample: a keyword row whose `content` is `"A"` and whose
`description` is `"B"` is normalized with snippet `"B"`, but the claim's
rule — the first 200 characters of the first NON-NULL candidate among
`content`/`description` — gives `"A"`: the keyword normalizer consults
`description` before `content`. -/
theorem snippet_rule_counterexample :
    (normalizeKRow krowBoth).snippet = "B"
  ∧ jsSlice 200 (claimFirstNonNull krowBoth.content krowBoth.description) = "A"
  ∧ (normalizeKRow krowBoth).snippet ≠
      jsSlice 200 (claimFirstNonNull krowBoth.content krowBoth.description) := by
  refine ⟨rfl, rfl, ?_⟩
  decide

/-- C4 (amended): every produced snippet has length at most 200 and equals
the first `min(200, length)` characters of the first non-empty, non-null
candidate field — `content` then `description` on the vector path, but
`description` then `content` on the keyword path — with no word-boundary
trimming (an empty or null candidate is skipped; the snippet is empty when
both are). -/
theorem snippet_truncation (v : VRow) (k : KRow) :
    (normalizeVRow v).snippet.length ≤ 200
  ∧ (normalizeKRow k).snippet.length ≤ 200
  ∧ (normalizeVRow v).snippet = jsSlice 200 (firstTruthy [v.content, v.description])
  ∧ (normalizeKRow k).snippet = jsSlice 200 (firstTruthy [k.description, k.content])
  ∧ (normalizeVRow v).snippet.length = min 200 (firstTruthy [v.content, v.description]).length
  ∧ (normalizeKRow k).snippet.length = min 200 (firstTruthy [k.description, k.content]).length := by
  have hv : (normalizeVRow v).snippet = jsSlice 200 (firstTruthy [v.content, v.description]) := by
    show jsSlice 200 (jsOrD (jsOr v.content v.description) "") = _
    rw [jsOrD_eq_firstTruthy]
  have hk : (normalizeKRow k).snippet = jsSlice 200 (firstTruthy [k.description, k.content]) := by
    show jsSlice 200 (jsOrD (jsOr k.description k.content) "") = _
    rw [jsOrD_eq_firstTruthy]
  refine ⟨?_, ?_, hv, hk, ?_, ?_⟩
  · rw [hv, jsSlice_length]; exact min_le_left _ _
  · rw [hk, jsSlice_length]; exact min_le_left _ _
  · rw [hv, jsSlice_length]
  · rw [hk, jsSlice_length]

/-! ## C1: the fallback-search method label -/

theorem searchImpl_eq (env : SearchEnv) (q : String) (optLimit : Option ℚ)
    (h : jsTrim q ≠ "") :
    searchImpl env (some q) optLimit =
      (let L := clampLimit optLimit
       let v := safeVector env q L (7/10)
       if v.1.ok && decide (0 < v.1.resultCount) then
         ({ results := v.1.results, resultCount := v.1.resultCount,
            method := some "vector", error := none }, v.2)
       else
         let k := safeKeyword env q L
         if k.1.ok then
           ({ results := k.1.results, resultCount := k.1.resultCount,
              method := some "keyword", error := none }, v.2 ++ k.2)
         else
           ({ results := [], resultCount := 0,
              method := some (if v.1.ok then "vector" else "keyword"),
              error := jsOr v.1.error k.1.error }, v.2 ++ k.2)) := by
  simp [searchImpl, blankQ, h]

/-- C1 counterexample: with a configured gateway whose vector RPC succeeds
with ZERO rows and whose keyword query fails with HTTP 500, the canonical
`search` returns `method: "vector"` — although the vector attempt did not
produce at least one result — so `method = "vector"` does not imply a
non-empty vector success, refuting the claimed equivalence. -/
theorem search_method_counterexample :
    (searchImpl envVecEmptyKwFail (some "contract") none).1.method = some "vector"
  ∧ (safeVector envVecEmptyKwFail "contract" (clampLimit none) (7/10)).1.resultCount = 0
  ∧ (searchImpl envVecEmptyKwFail (some "contract") none).1.results = []
  ∧ (searchImpl envVecEmptyKwFail (some "contract") none).1.error =
      some "Keyword search failed: 500" :=
  ⟨rfl, rfl, rfl, rfl⟩

/-- C1 (amended): in the canonical `TOOL_IMPL.search`, `method = "vector"`
when the vector attempt succeeds with at least one result; otherwise, when
the keyword fallback runs and succeeds, `method = "keyword"` (even for an
empty keyword result set); and when the fallback also fails, the response
is an empty result set whose `error` is the vector failure message if the
vector call failed and the keyword failure message otherwise, with `method`
labelled `"vector"` exactly when the vector call was ok (with zero
results). -/
theorem search_method_policy
    (envA : SearchEnv) (qA : String) (lA : Option ℚ) (hA0 : jsTrim qA ≠ "")
    (hA1 : (safeVector envA qA (clampLimit lA) (7/10)).1.ok = true)
    (hA2 : 0 < (safeVector envA qA (clampLimit lA) (7/10)).1.resultCount)
    (envB : SearchEnv) (qB : String) (lB : Option ℚ) (hB0 : jsTrim qB ≠ "")
    (hB1 : (safeVector envB qB (clampLimit lB) (7/10)).1.ok = false ∨
           (safeVector envB qB (clampLimit lB) (7/10)).1.resultCount = 0)
    (hB2 : (safeKeyword envB qB (clampLimit lB)).1.ok = true)
    (envC : SearchEnv) (qC : String) (lC : Option ℚ) (hC0 : jsTrim qC ≠ "")
    (hC1 : (safeVector envC qC (clampLimit lC) (7/10)).1.ok = false ∨
           (safeVector envC qC (clampLimit lC) (7/10)).1.resultCount = 0)
    (hC2 : (safeKeyword envC qC (clampLimit lC)).1.ok = false) :
      (searchImpl envA (some qA) lA).1.method = some "vector"
    ∧ (searchImpl envA (some qA) lA).1.results =
        (safeVector envA qA (clampLimit lA) (7/10)).1.results
    ∧ (searchImpl envA (some qA) lA).1.error = none
    ∧ (searchImpl envB (some qB) lB).1.method = some "keyword"
    ∧ (searchImpl envB (some qB) lB).1.results =
        (safeKeyword envB qB (clampLimit lB)).1.results
    ∧ (searchImpl envB (some qB) lB).1.error = none
    ∧ (searchImpl envC (some qC) lC).1.results = []
    ∧ (searchImpl envC (some qC) lC).1.method =
        some (if (safeVector envC qC (clampLimit lC) (7/10)).1.ok then "vector"
              else "keyword")
    ∧ (searchImpl envC (some qC) lC).1.error =
        jsOr (safeVector envC qC (clampLimit lC) (7/10)).1.error
             (safeKeyword envC qC (clampLimit lC)).1.error := by
  have eA := searchImpl_eq envA qA lA hA0
  have eB := searchImpl_eq envB qB lB hB0
  have eC := searchImpl_eq envC qC lC hC0
  have hBcond : ((safeVector envB qB (clampLimit lB) (7/10)).1.ok &&
      decide (0 < (safeVector envB qB (clampLimit lB) (7/10)).1.resultCount)) = false := by
    rcases hB1 with h | h <;> simp [h]
  have hCcond : ((safeVector envC qC (clampLimit lC) (7/10)).1.ok &&
      decide (0 < (safeVector envC qC (clampLimit lC) (7/10)).1.resultCount)) = false := by
    rcases hC1 with h | h <;> simp [h]
  refine ⟨?_, ?_, ?_, ?_, ?_, ?_, ?_, ?_, ?_⟩ <;>
    simp [eA, eB, eC, hA1, hA2, hBcond, hB2, hCcond, hC2]

/-- Witness for C1 on three concrete environments: a one-row vector hit, an
empty vector result with an ok keyword reply, and an empty vector result
with a failing keyword reply. -/
theorem search_method_policy_witness :
    jsTrim "contract" ≠ ""
  ∧ (safeVector envVecHit "contract" (clampLimit none) (7/10)).1.ok = true
  ∧ 0 < (safeVector envVecHit "contract" (clampLimit none) (7/10)).1.resultCount
  ∧ (searchImpl envVecHit (some "contract") none).1.method = some "vector" := by
  refine ⟨by decide, rfl, by decide, ?_⟩
  exact (search_method_policy envVecHit "contract" none (by decide) rfl (by decide)
    envBothEmpty "contract" none (by decide) (Or.inr rfl) rfl
    envVecEmptyKwFail "contract" none (by decide) (Or.inr rfl) rfl).1

/-! ## C10: the effective search limit -/

theorem safeVector_reqs (env : SearchEnv) (q : String) (L t : ℚ) :
    ∀ r ∈ (safeVector env q L t).2, reqLimit r = L := by
  intro r hr
  unfold safeVector at hr
  by_cases hq : jsTrim q = "" <;> simp [hq] at hr
  by_cases hc : env.configured <;> simp [hc] at hr
  rcases henv : env.vectorReply with l | st | m <;> simp [henv] at hr <;>
    simp [hr, reqLimit]

theorem safeKeyword_reqs (env : SearchEnv) (q : String) (L : ℚ) :
    ∀ r ∈ (safeKeyword env q L).2, reqLimit r = L := by
  intro r hr
  unfold safeKeyword at hr
  by_cases hq : jsTrim q = "" <;> simp [hq] at hr
  by_cases hc : env.configured <;> simp [hc] at hr
  rcases henv : env.keywordReply with l | st | m <;> simp [henv] at hr <;>
    simp [hr, reqLimit]

theorem searchImpl_reqs (env : SearchEnv) (optq : Option String) (optL : Option ℚ) :
    ∀ r ∈ (searchImpl env optq optL).2, reqLimit r = clampLimit optL := by
  intro r hr
  unfold searchImpl at hr
  dsimp only at hr
  split at hr
  · simp at hr
  · split at hr
    · exact safeVector_reqs env _ _ _ r hr
    · split at hr <;>
      · rcases List.mem_append.1 hr with h | h
        · exact safeVector_reqs env _ _ _ r h
        · exact safeKeyword_reqs env _ _ r h

/-- C10: the effective limit the canonical `search` forwards upstream — as
`match_count` to the vector RPC and as the keyword query's `limit` — is
clamped into `[1, 100]` and defaults to `20` when the caller omits it,
regardless of the caller-supplied value. -/
theorem search_limit_clamp (env : SearchEnv) (optq : Option String) (lim : ℚ) :
      1 ≤ clampLimit (some lim)
    ∧ clampLimit (some lim) ≤ 100
    ∧ clampLimit none = 20
    ∧ ((searchImpl env optq (some lim)).2.all
         (fun r => decide (reqLimit r = clampLimit (some lim)))) = true
    ∧ ((searchImpl env optq none).2.all
         (fun r => decide (reqLimit r = clampLimit none))) = true := by
  refine ⟨le_max_left _ _, max_le (by norm_num) (min_le_left _ _),
    by norm_num [clampLimit, min_def, max_def], ?_, ?_⟩ <;>
  · rw [List.all_eq_true]
    intro r hr
    simpa using searchImpl_reqs env optq _ r hr

/-! ## C9: argument validation -/

/-- C9 counterexample: a `search` call with an empty query does NOT fail
with an InvalidArgument RPC error — the dispatcher returns a successful
tool result (whose payload is the soft `query is required` object) — even
though no upstream request is issued. -/
theorem invalid_arg_counterexample :
    rpcIsErr (handleRpc (toolImpl envVecEmptyKwFail db0)
      (.request (some 1) "tools/call" "search"
        { query := some "", optionsLimit := none, id := none })) = false
  ∧ (searchImpl envVecEmptyKwFail (some "") none).2 = []
  ∧ (searchImpl envVecEmptyKwFail (some "") none).1.error = some "query is required" :=
  ⟨rfl, rfl, rfl⟩

/-- C9 (amended): a missing or blank `query` makes `search` return the soft
`query is required` result without issuing any upstream request, and a
missing `id` makes `fetch` return the soft `id is required` result without
attempting any lookup; but neither failure is an RPC-level InvalidArgument,
and an out-of-range numeric `limit` is not rejected at all — it is clamped
into `[1, 100]` and the upstream vector request is still issued. -/
theorem invalid_args_soft
    (env : SearchEnv) (optLimit : Option ℚ) (q : String) (hq : jsTrim q = "")
    (db : Db)
    (env2 : SearchEnv) (q2 : String) (hq2 : jsTrim q2 ≠ "")
    (hc2 : env2.configured = true) (lim2 : ℚ) :
      searchImpl env (some q) optLimit =
        ({ results := [], resultCount := 0, method := some "none",
           error := some "query is required" }, [])
    ∧ searchImpl env none optLimit =
        ({ results := [], resultCount := 0, method := some "none",
           error := some "query is required" }, [])
    ∧ fetchImpl db "" =
        ({ id := "", rtype := none, content := none,
           error := some "id is required" }, [])
    ∧ rpcIsErr (handleRpc (toolImpl env db)
        (.request (some 1) "tools/call" "search"
          { query := some q, optionsLimit := optLimit, id := none })) = false
    ∧ (searchImpl env2 (some q2) (some lim2)).2.head? =
        some (.vectorReq q2 (clampLimit (some lim2)) (7/10)) := by
  refine ⟨?_, ?_, ?_, ?_, ?_⟩
  · simp [searchImpl, blankQ, hq]
  · simp [searchImpl, blankQ]
  · simp [fetchImpl]
  · simp [handleRpc, toolImpl, rpcIsErr]
  · rw [searchImpl_eq env2 q2 (some lim2) hq2]
    dsimp only
    have hv : (safeVector env2 q2 (clampLimit (some lim2)) (7/10)).2 =
        [.vectorReq q2 (clampLimit (some lim2)) (7/10)] := by
      unfold safeVector
      simp [hq2, hc2]
      rcases env2.vectorReply with l | st | m <;> rfl
    split
    · rw [hv]; rfl
    · split <;> simp [hv]

/-- Witness for C9 at a blank query, the empty store, and an out-of-range
limit of 1000. -/
theorem invalid_args_soft_witness :
    jsTrim "" = ""
  ∧ jsTrim "contract" ≠ ""
  ∧ envVecHit.configured = true
  ∧ (searchImpl envVecHit (some "contract") (some 1000)).2.head? =
      some (.vectorReq "contract" (clampLimit (some 1000)) (7/10)) := by
  refine ⟨rfl, by decide, rfl, ?_⟩
  exact (invalid_args_soft envVecEmptyKwFail none "" rfl db0
    envVecHit "contract" (by decide) rfl 1000).2.2.2.2

/-! ## C6: JSON-RPC dispatcher error codes -/

/-- C6 counterexample: in the canonical dispatcher (`handleRpc` of
`src/unnamed/part_002`), a `tools/call` naming an unregistered tool yields
error code `-32602`, not the claimed `-32601` (which that dispatcher
reserves for unknown METHODS). -/
theorem unknown_tool_code_counterexample :
    handleRpc (toolImpl envVecEmptyKwFail db0)
      (.request (some 1) "tools/call" "nonexistent_tool" argsNone)
      = .err (some 1) (-32602) "Unknown tool: nonexistent_tool"
  ∧ (-32602 : ℤ) ≠ -32601 :=
  ⟨rfl, by decide⟩

/-- C6 (amended): a malformed JSON body yields `-32700` in both dispatchers;
a `tools/call` naming an unregistered tool yields `-32601` in the index.ts
dispatcher but `-32602` in the canonical enhanced dispatcher; a handler
exception yields `-32603`; and in the enhanced dispatcher a successful
handler return is wrapped as the single `{type: "text", ...}` content
block. -/
theorem rpc_dispatcher_codes
    (impl : Registry) (impl2 : IdxRegistry) (m : String)
    (i1 : ℤ) (nm1 : String) (a1 : ToolArgs) (h1 : impl nm1 = none)
    (i2 : ℤ) (nm2 : String) (a2 : ToolArgs) (e2 : String)
    (h2 : runTool impl nm2 a2 = some (.error e2)) (h2b : e2 ≠ "")
    (i3 : ℤ) (nm3 : String) (a3 : ToolArgs) (s3 : String)
    (h3 : runTool impl nm3 a3 = some (.ok s3))
    (id4 : Option ℤ) (nm4 : String) (a4 : ToolArgs) (h4 : impl2 nm4 = none) :
      handleRpc impl (.malformed m) = .err none (-32700) ("Parse error: " ++ m)
    ∧ handleRpc impl (.request (some i1) "tools/call" nm1 a1)
        = .err (some i1) (-32602) ("Unknown tool: " ++ nm1)
    ∧ handleRpc impl (.request (some i2) "tools/call" nm2 a2)
        = .err (some i2) (-32603) e2
    ∧ handleRpc impl (.request (some i3) "tools/call" nm3 a3)
        = .okTool i3 [⟨"text", s3⟩]
    ∧ idxHandleRpc impl2 (.malformed m) = .err none (-32700) "Parse error - invalid JSON"
    ∧ idxHandleRpc impl2 (.request id4 "tools/call" nm4 a4)
        = .err id4 (-32601) ("Tool not found: " ++ nm4) := by
  refine ⟨rfl, ?_, ?_, ?_, rfl, ?_⟩
  · simp [handleRpc, h1]
  · simp only [runTool] at h2
    rcases himpl : impl nm2 with _ | f <;> rw [himpl] at h2
    · simp at h2
    · simp only [Option.map] at h2
      have hf : f a2 = .error e2 := Option.some_injective _ h2
      simp [handleRpc, himpl, hf, h2b]
  · simp only [runTool] at h3
    rcases himpl : impl nm3 with _ | f <;> rw [himpl] at h3
    · simp at h3
    · simp only [Option.map] at h3
      have hf : f a3 = .ok s3 := Option.some_injective _ h3
      simp [handleRpc, himpl, hf]
  · simp [idxHandleRpc, h4]

/-- Witness for C6 on the embedded registries: an unknown tool name, the
`list_exhibits` throw on a missing configuration, a successful `search`
return, and an unknown name in the index.ts switch. -/
theorem rpc_dispatcher_codes_witness :
    toolImpl envNoDb db0 "nonexistent_tool" = none
  ∧ runTool (toolImpl envNoDb db0) "list_exhibits" argsNone
      = some (.error "Database not configured")
  ∧ runTool (toolImpl envNoDb db0) "search" argsNone
      = some (.ok (renderSearch (searchImpl envNoDb none none).1))
  ∧ idxRegistry (.rows []) "bogus_tool" = none
  ∧ handleRpc (toolImpl envNoDb db0) (.request (some 2) "tools/call" "list_exhibits" argsNone)
      = .err (some 2) (-32603) "Database not configured" := by
  refine ⟨rfl, rfl, rfl, rfl, ?_⟩
  exact (rpc_dispatcher_codes (toolImpl envNoDb db0) (idxRegistry (.rows [])) "bad json"
    1 "nonexistent_tool" argsNone rfl
    2 "list_exhibits" argsNone "Database not configured" rfl (by decide)
    3 "search" argsNone (renderSearch (searchImpl envNoDb none none).1) rfl
    (some 4) "bogus_tool" argsNone rfl).2.2.1

/-! ## C5: NotFound / NotConfigured surfacing -/

theorem exhibit_msg_ne (eid : String) : ("Exhibit " ++ eid ++ " not found") ≠ "" := by
  intro h
  have h2 := congrArg String.data h
  simp [String.data_append] at h2

/-- C5 counterexample: in the canonical dispatcher, a well-formed
`fetch_exhibit` call whose lookup finds no record surfaces as a JSON-RPC
protocol-level error with code `-32603` (the handler throws
`Exhibit <id> not found`), not as a soft error inside a successful result. -/
theorem soft_error_counterexample :
    handleRpc (toolImpl envVecEmptyKwFail db0)
      (.request (some 1) "tools/call" "fetch_exhibit"
        { query := none, optionsLimit := none, id := some "Ex999" })
      = .err (some 1) (-32603) "Exhibit Ex999 not found"
  ∧ rpcIsErr (handleRpc (toolImpl envVecEmptyKwFail db0)
      (.request (some 1) "tools/call" "fetch_exhibit"
        { query := none, optionsLimit := none, id := some "Ex999" })) = true :=
  ⟨rfl, rfl⟩

/-- C5 (amended): the `fetch_exhibit` handler of
`burns-legal-enhanced-full.ts` does surface a miss as the soft
`Exhibit <id> not found` payload inside a successful result; but in the
canonical `part_002` dispatcher, `fetch_exhibit` THROWS on a miss (also when
the gateway is unconfigured, since the lookup helper then returns null) and
`requireDb`-guarded tools such as `list_exhibits` THROW on a missing
credential, both surfacing as JSON-RPC errors with code `-32603` rather
than as soft results. -/
theorem notfound_vs_softerror
    (idF : String)
    (env : SearchEnv) (db : Db) (rid : ℤ) (eid : String)
    (hc : env.configured = true) (hmiss : db.exhibit eid = none)
    (env2 : SearchEnv) (db2 : Db) (rid2 : ℤ) (a2 : ToolArgs)
    (hc2 : env2.configured = false) :
      fullFetchExhibit (.rows []) idF = .soft ("Exhibit " ++ idF ++ " not found")
    ∧ handleRpc (toolImpl env db) (.request (some rid) "tools/call" "fetch_exhibit"
        { query := none, optionsLimit := none, id := some eid })
        = .err (some rid) (-32603) ("Exhibit " ++ eid ++ " not found")
    ∧ handleRpc (toolImpl env2 db2) (.request (some rid2) "tools/call" "list_exhibits" a2)
        = .err (some rid2) (-32603) "Database not configured" := by
  refine ⟨rfl, ?_, ?_⟩
  · simp [handleRpc, toolImpl, hc, hmiss, exhibit_msg_ne eid]
  · simp [handleRpc, toolImpl, hc2]

/-- Witness for C5 at the empty store with id `Ex999`. -/
theorem notfound_vs_softerror_witness :
    envVecEmptyKwFail.configured = true
  ∧ db0.exhibit "Ex999" = none
  ∧ envNoDb.configured = false
  ∧ fullFetchExhibit (.rows []) "Ex007" = .soft ("Exhibit " ++ "Ex007" ++ " not found") := by
  refine ⟨rfl, rfl, rfl, ?_⟩
  exact (notfound_vs_softerror "Ex007" envVecEmptyKwFail db0 1 "Ex999" rfl rfl
    envNoDb db0 2 argsNone rfl).1

/-! ## C7: the single-text-content-block invariant -/

/-- C7: the content-block invariant fails in `src/src/index.ts` —
`fetchExhibit` falls off the end and returns `undefined` (zero content
blocks) when the gateway answers 2xx with no matching row, and the `/mcp`
dispatcher then passes `undefined` through as the call's `result`; only the
exception path returns the intended single soft-error text block. -/
theorem idx_fetch_exhibit_zero_blocks :
    idxFetchExhibit (GReply.rows ([] : List IdxExRow)) "Ex042" = none
  ∧ idxHandleRpc (idxRegistry (.rows [])) (.request (some 7) "tools/call" "fetch_exhibit"
      { query := none, optionsLimit := none, id := some "Ex042" })
      = .okResult (some 7) none
  ∧ idxFetchExhibit (GReply.netErr "boom") "Ex042"
      = some [⟨"text", renderIdxExErr "Ex042"⟩] :=
  ⟨rfl, rfl, rfl⟩

/-! ## C3: the `fetch` id-sniffing order -/

theorem charCI_cases (p c : Char) (h : charCI p c = true) :
    c = p ∨ c = Char.ofNat (p.toNat - 32) := by
  simp only [charCI, Bool.or_eq_true, Bool.and_eq_true, beq_iff_eq,
    decide_eq_true_eq] at h
  rcases h with h | ⟨-, h⟩
  · exact Or.inl h
  · exact Or.inr h

theorem exPat_head (s : String) (h : exPat s = true) :
    ∃ c cs, s.data = c :: cs ∧ (charCI 'e' c || charCI 'f' c || charCI 'm' c) = true := by
  unfold exPat at h
  rcases hd : s.data with _ | ⟨c, cs⟩ <;> rw [hd] at h
  · simp [startsCI] at h
  · refine ⟨c, cs, rfl, ?_⟩
    simp only [startsCI, Bool.or_eq_true, Bool.and_eq_true] at h
    simp only [Bool.or_eq_true]
    rcases h with (⟨h, -⟩ | ⟨h, -⟩) | ⟨h, -⟩
    exacts [Or.inl (Or.inl h), Or.inl (Or.inr h), Or.inr h]

theorem exHead_excl (c : Char)
    (h : (charCI 'e' c || charCI 'f' c || charCI 'm' c) = true) :
    charCI 'c' c = false ∧ c.isDigit = false := by
  simp only [Bool.or_eq_true] at h
  rcases h with (h | h) | h <;>
    rcases charCI_cases _ _ h with h' | h' <;> subst h' <;>
    exact ⟨by decide, by decide⟩

theorem exPat_not_claimPat (s : String) (h : exPat s = true) : claimPat s = false := by
  obtain ⟨c, cs, hd, hc⟩ := exPat_head s h
  obtain ⟨h1, h2⟩ := exHead_excl c hc
  unfold claimPat isNumericId
  rw [hd]
  simp [startsCI, h1, h2]

theorem exPat_ne_empty (s : String) (h : exPat s = true) : s ≠ "" := by
  obtain ⟨c, cs, hd, -⟩ := exPat_head s h
  intro he
  subst he
  simp at hd

theorem claimPat_ne_empty (s : String) (h : claimPat s = true) : s ≠ "" := by
  intro he
  subst he
  simp [claimPat, isNumericId, startsCI] at h

theorem factPat_ne_empty (s : String) (h : factPat s = true) : s ≠ "" := by
  intro he
  subst he
  simp [factPat, startsCI] at h

theorem clm_notin_tryDoc (db : Db) (i : String) (tr : List Kind)
    (h : Kind.clm ∉ tr) : Kind.clm ∉ (tryDoc db i tr).2 := by
  unfold tryDoc
  rcases hdoc : db.doc i with _ | d <;> simp [List.mem_append, h]

theorem clm_notin_tryFact (db : Db) (i : String) (tr : List Kind)
    (h : Kind.clm ∉ tr) : Kind.clm ∉ (tryFact db i tr).2 := by
  unfold tryFact
  by_cases hp : factPat i = true
  · simp only [hp, if_true]
    rcases hl : factLookup db i with _ | f
    · exact clm_notin_tryDoc db i _ (by simp [List.mem_append, h])
    · simp [List.mem_append, h]
  · simp only [hp, if_false]
    exact clm_notin_tryDoc db i tr h

theorem clm_notin_tryClaim (db : Db) (i : String) (tr : List Kind)
    (hpat : claimPat i = false) (h : Kind.clm ∉ tr) :
    Kind.clm ∉ (tryClaim db i tr).2 := by
  unfold tryClaim
  simp only [hpat, if_false]
  exact clm_notin_tryFact db i tr h

theorem clm_notin_tryExhibit (db : Db) (i : String) (tr : List Kind)
    (hpat : claimPat i = false) (h : Kind.clm ∉ tr) :
    Kind.clm ∉ (tryExhibit db i tr).2 := by
  unfold tryExhibit
  by_cases he : exPat i = true
  · simp only [he, if_true]
    rcases hx : db.exhibit i with _ | ex
    · exact clm_notin_tryClaim db i _ hpat (by simp [List.mem_append, h])
    · simp [List.mem_append, h]
  · simp only [he, if_false]
    exact clm_notin_tryClaim db i tr hpat h

theorem fetch_eq_tryClaim (db : Db) (i : String) (hne : i ≠ "")
    (hEx : exPat i = false ∨ db.exhibit i = none) :
    ∃ tr, fetchImpl db i = tryClaim db i tr := by
  unfold fetchImpl
  simp only [hne, if_false]
  unfold tryExhibit
  rcases hEx with h | h
  · exact ⟨[], by simp [h]⟩
  · by_cases he : exPat i = true
    · exact ⟨[Kind.exh], by simp [he, h]⟩
    · exact ⟨[], by simp [he]⟩

theorem tryClaim_eq_tryFact (db : Db) (i : String) (tr : List Kind)
    (hClm : claimPat i = false ∨ db.claim i = none) :
    ∃ tr2, tryClaim db i tr = tryFact db i tr2 := by
  unfold tryClaim
  rcases hClm with h | h
  · exact ⟨tr, by simp [h]⟩
  · by_cases hp : claimPat i = true
    · exact ⟨tr ++ [Kind.clm], by simp [hp, h]⟩
    · exact ⟨tr, by simp [hp]⟩

theorem tryFact_eq_tryDoc (db : Db) (i : String) (tr : List Kind)
    (hFct : factPat i = false ∨ factLookup db i = none) :
    ∃ tr2, tryFact db i tr = tryDoc db i tr2 := by
  unfold tryFact
  rcases hFct with h | h
  · exact ⟨tr, by simp [h]⟩
  · by_cases hp : factPat i = true
    · exact ⟨tr ++ [Kind.fct], by simp [hp, h]⟩
    · exact ⟨tr, by simp [hp]⟩

/-- C3: the universal `fetch` resolves the resource kind in the fixed order
exhibit (for `Ex`/`FL_`/`MN_`-shaped ids), claim (for `claim_`-shaped or
purely numeric ids), fact (for `fact_`-shaped ids, by raw or stripped id),
then generic document; the first successful lookup fixes the returned
`type`; a full miss yields `{id, error: "Resource not found"}`; and an
exhibit-shaped id never satisfies the claim-shape test, so it is never
looked up as a claim — whatever the store contains. -/
theorem fetch_id_sniffing
    (db1 : Db) (i1 : String) (h1 : exPat i1 = true)
    (db2 : Db) (i2 : String) (ex2 : ExRow)
    (h2a : exPat i2 = true) (h2b : db2.exhibit i2 = some ex2)
    (db3 : Db) (i3 : String) (c3 : ClaimRow) (h3a : claimPat i3 = true)
    (h3b : exPat i3 = false ∨ db3.exhibit i3 = none) (h3c : db3.claim i3 = some c3)
    (db4 : Db) (i4 : String) (f4 : FactRow) (h4a : factPat i4 = true)
    (h4b : exPat i4 = false ∨ db4.exhibit i4 = none)
    (h4c : claimPat i4 = false ∨ db4.claim i4 = none)
    (h4d : factLookup db4 i4 = some f4)
    (db5 : Db) (i5 : String) (d5 : DocRow) (h5a : i5 ≠ "")
    (h5b : exPat i5 = false ∨ db5.exhibit i5 = none)
    (h5c : claimPat i5 = false ∨ db5.claim i5 = none)
    (h5d : factPat i5 = false ∨ factLookup db5 i5 = none)
    (h5e : db5.doc i5 = some d5)
    (db6 : Db) (i6 : String) (h6a : i6 ≠ "")
    (h6b : exPat i6 = false ∨ db6.exhibit i6 = none)
    (h6c : claimPat i6 = false ∨ db6.claim i6 = none)
    (h6d : factPat i6 = false ∨ factLookup db6 i6 = none)
    (h6e : db6.doc i6 = none) :
      claimPat i1 = false
    ∧ Kind.clm ∉ (fetchImpl db1 i1).2
    ∧ (fetchImpl db2 i2).1.rtype = some "exhibit"
    ∧ (fetchImpl db3 i3).1.rtype = some "claim"
    ∧ (fetchImpl db4 i4).1.rtype = some "fact"
    ∧ (fetchImpl db5 i5).1.rtype = some "document"
    ∧ (fetchImpl db6 i6).1 = notFoundOut i6 := by
  refine ⟨exPat_not_claimPat i1 h1, ?_, ?_, ?_, ?_, ?_, ?_⟩
  · unfold fetchImpl
    by_cases hne : i1 = ""
    · simp [hne]
    · simp only [hne, if_false]
      exact clm_notin_tryExhibit db1 i1 [] (exPat_not_claimPat i1 h1) (by simp)
  · have hne := exPat_ne_empty i2 h2a
    unfold fetchImpl
    simp only [hne, if_false]
    unfold tryExhibit
    simp [h2a, h2b]
  · obtain ⟨tr, htr⟩ := fetch_eq_tryClaim db3 i3 (claimPat_ne_empty i3 h3a) h3b
    rw [htr]
    unfold tryClaim
    simp [h3a, h3c]
  · obtain ⟨tr, htr⟩ := fetch_eq_tryClaim db4 i4 (factPat_ne_empty i4 h4a) h4b
    obtain ⟨tr2, htr2⟩ := tryClaim_eq_tryFact db4 i4 tr h4c
    rw [htr, htr2]
    unfold tryFact
    simp [h4a, h4d]
  · obtain ⟨tr, htr⟩ := fetch_eq_tryClaim db5 i5 h5a h5b
    obtain ⟨tr2, htr2⟩ := tryClaim_eq_tryFact db5 i5 tr h5c
    obtain ⟨tr3, htr3⟩ := tryFact_eq_tryDoc db5 i5 tr2 h5d
    rw [htr, htr2, htr3]
    unfold tryDoc
    simp [h5e]
  · obtain ⟨tr, htr⟩ := fetch_eq_tryClaim db6 i6 h6a h6b
    obtain ⟨tr2, htr2⟩ := tryClaim_eq_tryFact db6 i6 tr h6c
    obtain ⟨tr3, htr3⟩ := tryFact_eq_tryDoc db6 i6 tr2 h6d
    rw [htr, htr2, htr3]
    unfold tryDoc
    simp [h6e]

/-- Witness for C3: `Ex042` with a claim of that id in the store but no
exhibit is resolved to `Resource not found` without the claim table ever
being consulted, and the four id shapes resolve to their kinds on a
populated store. -/
theorem fetch_id_sniffing_witness :
    exPat "Ex042" = true
  ∧ Kind.clm ∉ (fetchImpl dbEx042 "Ex042").2
  ∧ (fetchImpl dbEx042 "Ex042").1 = notFoundOut "Ex042"
  ∧ (fetchImpl dbFull "Ex001").1.rtype = some "exhibit"
  ∧ (fetchImpl dbFull "claim_9").1.rtype = some "claim"
  ∧ (fetchImpl dbFull "fact_7").1.rtype = some "fact"
  ∧ (fetchImpl dbFull "misc").1.rtype = some "document" := by
  have h := fetch_id_sniffing
    dbEx042 "Ex042" (by decide)
    dbFull "Ex001" exRowW (by decide) rfl
    dbFull "claim_9" claimRow2M (by decide) (Or.inl (by decide)) rfl
    dbFull "fact_7" factRowW (by decide) (Or.inr rfl) (Or.inl (by decide)) rfl
    dbFull "misc" docRowW (by decide) (Or.inl (by decide)) (Or.inl (by decide))
      (Or.inl (by decide)) rfl
    dbEx042 "Ex042" (by decide) (Or.inr rfl) (Or.inl (by decide)) (Or.inr rfl) rfl
  exact ⟨by decide, h.2.1, h.2.2.2.2.2.2, h.2.2.1, h.2.2.2.1, h.2.2.2.2.1, h.2.2.2.2.2.1⟩

/-! ## C8: `get_exhibit_relationships` -/

theorem jsDedupAux_mem {α : Type} [DecidableEq α] (l seen : List α) (x : α) :
    x ∈ jsDedupAux l seen ↔ x ∈ l ∧ x ∉ seen := by
  induction l generalizing seen with
  | nil => simp [jsDedupAux]
  | cons y ys ih =>
    unfold jsDedupAux
    by_cases hy : y ∈ seen
    · rw [if_pos hy, ih]
      constructor
      · rintro ⟨h1, h2⟩
        exact ⟨List.mem_cons_of_mem _ h1, h2⟩
      · rintro ⟨h1, h2⟩
        rcases List.mem_cons.1 h1 with rfl | h1
        · exact absurd hy h2
        · exact ⟨h1, h2⟩
    · rw [if_neg hy]
      constructor
      · intro h
        rcases List.mem_cons.1 h with rfl | h
        · exact ⟨List.mem_cons_self _ _, hy⟩
        · obtain ⟨h1, h2⟩ := (ih (y :: seen)).1 h
          exact ⟨List.mem_cons_of_mem _ h1,
            fun hs => h2 (List.mem_cons_of_mem _ hs)⟩
      · rintro ⟨h1, h2⟩
        rcases eq_or_ne x y with rfl | hxy
        · exact List.mem_cons_self _ _
        · rcases List.mem_cons.1 h1 with rfl | h1
          · exact absurd rfl hxy
          · refine List.mem_cons_of_mem _ ((ih (y :: seen)).2 ⟨h1, fun hc => ?_⟩)
            rcases List.mem_cons.1 hc with h | h
            · exact hxy h
            · exact h2 h

theorem jsDedupAux_nodup {α : Type} [DecidableEq α] (l seen : List α) :
    (jsDedupAux l seen).Nodup := by
  induction l generalizing seen with
  | nil => simp [jsDedupAux]
  | cons y ys ih =>
    unfold jsDedupAux
    by_cases hy : y ∈ seen
    · simp only [hy, if_true]
      exact ih seen
    · simp only [hy, if_false, List.nodup_cons]
      refine ⟨fun hmem => ?_, ih _⟩
      exact ((jsDedupAux_mem ys (y :: seen) y).1 hmem).2 (List.mem_cons_self y seen)

theorem jsDedup_mem {α : Type} [DecidableEq α] (l : List α) (x : α) :
    x ∈ jsDedup l ↔ x ∈ l := by
  simp [jsDedup, jsDedupAux_mem]

theorem jsDedup_nodup {α : Type} [DecidableEq α] (l : List α) : (jsDedup l).Nodup :=
  jsDedupAux_nodup l []

theorem jsDedup_toFinset {α : Type} [DecidableEq α] (l : List α) :
    (jsDedup l).toFinset = l.toFinset := by
  ext x
  simp [List.mem_toFinset, jsDedup_mem]

theorem jsDedup_eq_nil {α : Type} [DecidableEq α] (l : List α) :
    jsDedup l = [] ↔ l = [] := by
  cases l <;> simp [jsDedup, jsDedupAux]

/-- C8: for every `get_exhibit_relationships` call with depth in `[1, 3]`,
`related_claims` is the duplicate-free set of claim ids referenced by facts
whose source exhibit is the given id; `related_exhibits` is the
duplicate-free union of those claims' exhibit-id lists with the origin
excluded; both fields are identical for every depth value (only one hop is
computed), and the supplied depth is merely echoed. -/
theorem exhibit_relationships_spec (db : RelDb) (ex : String) (d d2 : ℤ)
    (hd1 : 1 ≤ d) (hd2 : d ≤ 3) (hd3 : 1 ≤ d2) (hd4 : d2 ≤ 3) :
      (relationshipsImpl db ex d).related_claims.Nodup
    ∧ (relationshipsImpl db ex d).related_claims.toFinset =
        ((db.facts.filter (fun f => f.source_exhibit_id = ex)).map
          FactRel.claim_id).toFinset
    ∧ (relationshipsImpl db ex d).related_exhibits.Nodup
    ∧ (relationshipsImpl db ex d).related_exhibits.toFinset =
        (((db.claims.filter (fun c => decide (c.cid ∈
            (db.facts.filter (fun f => f.source_exhibit_id = ex)).map
              FactRel.claim_id))).flatMap ClaimRel.exhibit_ids).toFinset).filter
          (fun i => i ≠ ex)
    ∧ (relationshipsImpl db ex d).related_claims =
        (relationshipsImpl db ex d2).related_claims
    ∧ (relationshipsImpl db ex d).related_exhibits =
        (relationshipsImpl db ex d2).related_exhibits
    ∧ (relationshipsImpl db ex d).depth = d := by
  classical
  set m := (db.facts.filter (fun f => f.source_exhibit_id = ex)).map FactRel.claim_id
    with hm
  have hfilter :
      db.claims.filter (fun c => decide (c.cid ∈ jsDedup m)) =
      db.claims.filter (fun c => decide (c.cid ∈ m)) := by
    apply List.filter_congr
    intro c _
    simp [jsDedup_mem]
  by_cases hemp : (jsDedup m).isEmpty
  · have hnil : jsDedup m = [] := by
      cases h : jsDedup m
      · rfl
      · rw [h] at hemp; simp [List.isEmpty] at hemp
    have hmnil : m = [] := (jsDedup_eq_nil m).1 hnil
    refine ⟨?_, ?_, ?_, ?_, ?_, ?_, ?_⟩ <;>
      simp [relationshipsImpl, ← hm, hemp, hmnil, jsDedup, jsDedupAux]
  · refine ⟨?_, ?_, ?_, ?_, ?_, ?_, ?_⟩
    · simp [relationshipsImpl, ← hm, hemp]
      exact jsDedup_nodup m
    · simp [relationshipsImpl, ← hm, hemp]
      exact jsDedup_toFinset m
    · simp [relationshipsImpl, ← hm, hemp]
      exact (jsDedup_nodup _).filter _
    · simp only [relationshipsImpl, ← hm, hemp, if_false, Bool.false_eq_true]
      rw [hfilter, List.toFinset_filter, jsDedup_toFinset]
      ext x
      simp
    · simp [relationshipsImpl, ← hm, hemp]
    · simp [relationshipsImpl, ← hm, hemp]
    · simp [relationshipsImpl, ← hm, hemp]

/-- Witness for C8 on a small store, at depths 1 and 3. -/
theorem exhibit_relationships_spec_witness :
    (1:ℤ) ≤ 1 ∧ (1:ℤ) ≤ 3 ∧ (3:ℤ) ≤ 3
  ∧ (relationshipsImpl relDbW "ExA" 1).related_claims.Nodup
  ∧ (relationshipsImpl relDbW "ExA" 1).related_exhibits =
      (relationshipsImpl relDbW "ExA" 3).related_exhibits
  ∧ (relationshipsImpl relDbW "ExA" 1).depth = 1 := by
  have h := exhibit_relationships_spec relDbW "ExA" 1 3
    (by decide) (by decide) (by decide) (by decide)
  exact ⟨by decide, by decide, by decide, h.1, h.2.2.2.2.2.1, h.2.2.2.2.2.2⟩
